import Mathlib

/-!
Verification of the Handai Tauri main process
(`src/desktop/tauri/src-tauri/src/main.rs`).

The program is a local service supervisor: it spawns a Next.js standalone
server as a sidecar child process, polls `127.0.0.1:3947` until the port
accepts connections (or a 20 s deadline passes), navigates the webview on
success, and kills the child when the window closes.  The shared state is a
single slot `ServerState(Mutex<Option<CommandChild>>)`; the mutex gives all
accesses mutual exclusion, so the slot is embedded here as a plain
`Option CommandChild` threaded sequentially through the handlers.
External effects (TCP connects, the kill request, the save dialog, the file
write) are passed in as explicit function arguments / values.
-/

namespace Handai

/-- Line 27: `const PORT: u16 = 3947;`. -/
def PORT : Nat := 3947

/-- Opaque process handle (`tauri_plugin_shell::process::CommandChild`),
identified here by its pid. -/
structure CommandChild where
  pid : Nat
deriving DecidableEq, Repr

/-- Contents of `ServerState(Mutex<Option<CommandChild>>)` (line 29).
Mutual exclusion is abstracted away: every access in the source holds the
lock for the whole read-modify-write, so accesses are sequential. -/
abbrev ServerSlot := Option CommandChild

/-- Number of handles the registry slot holds. -/
def slotCount : ServerSlot → Nat
  | none => 0
  | some _ => 1

/-- Line 137: `state.0.lock().unwrap().take()` — returns the previous
contents and leaves the slot empty.  Result is (taken value, slot after). -/
def take (s : ServerSlot) : Option CommandChild × ServerSlot :=
  (s, none)

/-- Line 113: `*state.0.lock().unwrap() = Some(child);` — an unconditional
overwrite of the slot.  The source contains no `debug_assert!` (or any check
of the previous contents) at this write; the Bool records whether an
assertion fired, hence it is always `false`.  Result is
(assertion fired, slot after). -/
def put (child : CommandChild) (_s : ServerSlot) : Bool × ServerSlot :=
  (false, some child)

/-- Transport-level error of a connect attempt. -/
inductive TransportError
  | refused
  | reset
  | other (code : Nat)
deriving DecidableEq, Repr

/-- Result of one `TcpStream::connect` attempt. -/
abbrev ConnectResult := Except TransportError Unit

/-- Rust `Result::is_ok()` — the only inspection `wait_for_server` makes of
a connect result (line 41). -/
def is_ok : ConnectResult → Bool
  | Except.ok _ => true
  | Except.error _ => false

/-- Loop body of `wait_for_server` (lines 37–45).  `connect i` is the
outcome of the i-th `TcpStream::connect` attempt; `t` is the elapsed time in
milliseconds when iteration `i` starts (the attempts are 300 ms apart, the
inter-poll sleep of line 44); `d` is the deadline in milliseconds.  The loop
first checks `Instant::now() > deadline` (line 38), then attempts a connect,
then sleeps 300 ms. -/
def waitFrom (connect : Nat → ConnectResult) (d : Nat) (t : Nat) (i : Nat) : Bool :=
  if _h : t > d then false
  else if is_ok (connect i) then true
  else waitFrom connect d (t + 300) (i + 1)
termination_by d + 1 - t
decreasing_by simp_wf; omega

/-- Lines 34–46: `wait_for_server(port, max_secs)`.  The port only selects
which address `connect` probes, so it is folded into `connect`; the deadline
is `max_secs` seconds from the start. -/
def wait_for_server (connect : Nat → ConnectResult) (max_secs : Nat) : Bool :=
  waitFrom connect (1000 * max_secs) 0 0

/-- Lines 48–51: `get_server_url`, `format!("http://127.0.0.1:{PORT}")`. -/
def get_server_url : String :=
  "http://127.0.0.1:" ++ toString PORT

/-- The `tauri_plugin_dialog::FilePath` value a save dialog can return:
either a plain filesystem path or a URL. -/
inductive DialogPath
  | path (p : String)
  | url (u : String)
deriving DecidableEq, Repr

/-- Lines 57–74: `save_file`.  `dialogResult` is what
`blocking_save_file()` returned (`None` = user cancelled); `write p` is the
outcome of `std::fs::write` at path `p` (the error already rendered to a
string, as `map_err(|e| e.to_string())` does). -/
def save_file (dialogResult : Option DialogPath)
    (write : String → Except String Unit) : Except String Bool :=
  match dialogResult with
  | some (DialogPath.path p) =>
    match write p with
    | Except.error e => Except.error e
    | Except.ok _ => Except.ok true
  | some _ => Except.error "Unsupported path type"
  | none => Except.ok false

/-- Lines 94–99, 106–109: the environment overlay applied to the spawned
sidecar, as the ordered list of `.env(key, value)` calls.
`db_url` is line 99: `format!("file:{}/handai.db", data_dir.display())`. -/
def db_url (dataDir : String) : String :=
  "file:" ++ dataDir ++ "/handai.db"

/-- The four `.env` calls of lines 106–109, in source order. -/
def envOverlay (dataDir : String) : List (String × String) :=
  [ ("PORT", toString PORT)
  , ("HOSTNAME", "127.0.0.1")
  , ("NODE_ENV", "production")
  , ("DATABASE_URL", db_url dataDir) ]

/-- Lines 101–113 of the setup closure (production branch): resolve the
`node` sidecar, spawn it, store the child in the registry.  Both
`.expect(...)` calls abort the process with their message on failure, which
is embedded as `Except.error`; only on success does execution reach the
`put` of line 113.  `resolve` is the outcome of `.sidecar("node")`,
`spawnChild` the outcome of `.spawn()`. -/
def setup_sidecar (resolve : Except String Unit)
    (spawnChild : Except String CommandChild) (slot : ServerSlot) :
    Except String ServerSlot :=
  match resolve with
  | Except.error _ =>
    Except.error "node sidecar not configured — see desktop/README.md"
  | Except.ok _ =>
    match spawnChild with
    | Except.error _ => Except.error "Failed to spawn Next.js server"
    | Except.ok child => Except.ok (put child slot).2

/-- Lines 132–144: the `on_window_event` close handler.  It takes the slot
contents (lines 135–139), and if a child was present requests a kill and
discards the result (`let _ = child.kill();`, line 141).  Returns
(number of kill requests issued, slot after the handler). -/
def on_close (kill : CommandChild → Except String Unit) (s : ServerSlot) :
    Nat × ServerSlot :=
  let t := take s
  match t.1 with
  | some child =>
    let _ := kill child
    (1, t.2)
  | none => (0, t.2)

end Handai

namespace Handai

/-- C1: On a window-close event the handler takes the slot and issues
exactly `slotCount s` kill requests — one when the registry held a handle,
zero on an empty registry — and on the empty registry it returns normally
with no termination action. -/
theorem on_close_kill_iff_held (kill : CommandChild → Except String Unit)
    (s : ServerSlot) :
    (on_close kill s).1 = slotCount s ∧
    ((on_close kill s).1 = 1 ↔ s ≠ none) ∧
    on_close kill none = (0, none) := by
  cases s <;> simp [on_close, take, slotCount]

/-- C2: `take` on an empty slot returns empty (and, being a total function,
never errors), also when called twice in a row; the slot holds at most one
handle at every instant, and after `take` the slot is empty. -/
theorem take_empty_spec (s : ServerSlot) :
    take (none : ServerSlot) = (none, none) ∧
    (take s).2 = none ∧
    take (take s).2 = (none, none) ∧
    slotCount s ≤ 1 := by
  cases s <;> simp [take, slotCount]

/-- C3 counterexample: putting a handle into an occupied slot fires no
assertion (first component `false`) and silently overwrites the occupied
slot — line 113 is an unconditional `*slot = Some(child)` with no
`debug_assert!` in any build. -/
theorem put_occupied_no_assertion :
    (put ⟨2⟩ (some ⟨1⟩)).1 ≠ true ∧ (put ⟨2⟩ (some ⟨1⟩)).2 = some ⟨2⟩ := by
  constructor <;> simp [put]

/-- C3 amended: `put` unconditionally overwrites the slot with the new
handle and never fires an assertion, whatever the previous contents (in
debug builds the sole call site is compiled out altogether, so no assertion
exists there either). -/
theorem put_overwrites_silently (child : CommandChild) (s : ServerSlot) :
    put child s = (false, some child) := rfl

/-- C7: the environment overlay applied to the spawned child is exactly
PORT=3947, HOSTNAME=127.0.0.1, NODE_ENV=production, and DATABASE_URL
derived from the resolved data directory, with no other keys. -/
theorem envOverlay_exact (d : String) :
    envOverlay d =
      [ ("PORT", "3947")
      , ("HOSTNAME", "127.0.0.1")
      , ("NODE_ENV", "production")
      , ("DATABASE_URL", "file:" ++ d ++ "/handai.db") ] ∧
    (envOverlay d).map Prod.fst =
      ["PORT", "HOSTNAME", "NODE_ENV", "DATABASE_URL"] := by
  constructor <;> rfl

/-- C8: `get_server_url` is a constant of the fixed port: every call
returns the string http://127.0.0.1:3947, with no probing and no state. -/
theorem get_server_url_const :
    get_server_url = "http://127.0.0.1:3947" := rfl

/-- C9 counterexample: when the dialog returns a non-filesystem path,
`save_file` returns neither saved (`ok true`) nor cancelled (`ok false`)
but the error "Unsupported path type" — a third outcome. -/
theorem save_file_third_outcome :
    save_file (some (DialogPath.url "https://example.org"))
        (fun _ => Except.ok ()) = Except.error "Unsupported path type" ∧
    save_file (some (DialogPath.url "https://example.org"))
        (fun _ => Except.ok ()) ≠ Except.ok true ∧
    save_file (some (DialogPath.url "https://example.org"))
        (fun _ => Except.ok ()) ≠ Except.ok false := by
  refine ⟨rfl, ?_, ?_⟩ <;> simp [save_file]

/-- C9 amended: `save_file` returns saved (`ok true`) after a successful
write to the chosen filesystem path, cancelled (`ok false`) when the dialog
returns no path, and otherwise an error string (write failure, or a
non-filesystem path type from the dialog). -/
theorem save_file_outcomes (d : Option DialogPath)
    (w : String → Except String Unit) :
    (d = none ∧ save_file d w = Except.ok false) ∨
    (∃ p, d = some (DialogPath.path p) ∧
      ((w p = Except.ok () ∧ save_file d w = Except.ok true) ∨
       (∃ e, w p = Except.error e ∧ save_file d w = Except.error e))) ∨
    (∃ u, d = some (DialogPath.url u) ∧
      save_file d w = Except.error "Unsupported path type") := by
  match d with
  | none => exact Or.inl ⟨rfl, rfl⟩
  | some (DialogPath.url u) => exact Or.inr (Or.inr ⟨u, rfl, rfl⟩)
  | some (DialogPath.path p) =>
    refine Or.inr (Or.inl ⟨p, rfl, ?_⟩)
    match hw : w p with
    | Except.ok () => exact Or.inl ⟨rfl, by simp [save_file, hw]⟩
    | Except.error e => exact Or.inr ⟨e, rfl, by simp [save_file, hw]⟩

/-- Characterisation of the polling loop: starting at elapsed time `t`
(milliseconds) and attempt index `i`, the loop returns `true` exactly when
some attempt made no later than the deadline succeeds.  Attempt `i + k`
happens at elapsed time `t + 300 * k`; an attempt is made whenever its
start time is not strictly past the deadline (line 38 checks
`now > deadline`). -/
theorem waitFrom_eq_true_iff (c : Nat → ConnectResult) (d : Nat) :
    ∀ t i, waitFrom c d t i = true ↔
      ∃ k, t + 300 * k ≤ d ∧ is_ok (c (i + k)) = true := by
  intro t i
  induction t, i using waitFrom.induct c d with
  | case1 t i h =>
    rw [waitFrom]
    simp only [dif_pos h]
    constructor
    · intro hfalse; exact absurd hfalse (by simp)
    · rintro ⟨k, hk, -⟩; omega
  | case2 t i h hok =>
    rw [waitFrom]
    simp only [dif_neg h, if_pos hok]
    constructor
    · intro _
      refine ⟨0, by omega, ?_⟩
      simpa using hok
    · intro _; trivial
  | case3 t i h hok ih =>
    rw [waitFrom]
    simp only [dif_neg h, if_neg hok]
    rw [ih]
    constructor
    · rintro ⟨k, hk, hc⟩
      refine ⟨k + 1, by omega, ?_⟩
      have e : i + 1 + k = i + (k + 1) := by omega
      rwa [e] at hc
    · rintro ⟨k, hk, hc⟩
      match k with
      | 0 =>
        exfalso
        simp only [Nat.add_zero] at hc
        exact hok hc
      | Nat.succ k =>
        refine ⟨k, by omega, ?_⟩
        have e : i + (k + 1) = i + 1 + k := by omega
        rwa [e] at hc

/-- The loop inspects each connect attempt only through `is_ok`: two
attempt sequences agreeing on success/failure give the same run. -/
theorem waitFrom_congr (c1 c2 : Nat → ConnectResult) (d : Nat)
    (h : ∀ k, is_ok (c1 k) = is_ok (c2 k)) :
    ∀ t i, waitFrom c1 d t i = waitFrom c2 d t i := by
  intro t i
  have A := waitFrom_eq_true_iff c1 d t i
  have B := waitFrom_eq_true_iff c2 d t i
  cases hb : waitFrom c2 d t i with
  | false =>
    cases ha : waitFrom c1 d t i with
    | false => rfl
    | true =>
      exfalso
      obtain ⟨k, hk, hc⟩ := A.mp ha
      rw [h (i + k)] at hc
      have hb2 : waitFrom c2 d t i = true := B.mpr ⟨k, hk, hc⟩
      rw [hb] at hb2
      exact Bool.noConfusion hb2
  | true =>
    cases ha : waitFrom c1 d t i with
    | true => rfl
    | false =>
      exfalso
      obtain ⟨k, hk, hc⟩ := B.mp hb
      rw [← h (i + k)] at hc
      have ha2 : waitFrom c1 d t i = true := A.mpr ⟨k, hk, hc⟩
      rw [ha] at ha2
      exact Bool.noConfusion ha2

/-- C4: `wait_for_server` is a total function of the attempt outcomes (the
loop never runs forever: each iteration advances elapsed time by the fixed
300 ms poll interval and the loop exits once the deadline is passed), it
returns `true` exactly when some connect attempt within the deadline
succeeds, and with the 20 s deadline used by the program it returns `false`
exactly when none of the attempts k = 0..66 (times 0 ms..19800 ms)
succeeds. -/
theorem wait_for_server_terminates (c : Nat → ConnectResult) (m : Nat) :
    (wait_for_server c m = true ↔
      ∃ k, 300 * k ≤ 1000 * m ∧ is_ok (c k) = true) ∧
    (wait_for_server c 20 = false ↔
      ∀ k, k ≤ 66 → is_ok (c k) = false) := by
  have base : ∀ n, wait_for_server c n = true ↔
      ∃ k, 300 * k ≤ 1000 * n ∧ is_ok (c k) = true := by
    intro n
    unfold wait_for_server
    rw [waitFrom_eq_true_iff]
    constructor
    · rintro ⟨k, hk, hc⟩; exact ⟨k, by omega, by simpa using hc⟩
    · rintro ⟨k, hk, hc⟩; exact ⟨k, by omega, by simpa using hc⟩
  refine ⟨base m, ?_⟩
  rw [← Bool.not_eq_true, base 20]
  push_neg
  constructor
  · intro h k hk
    have := h k (by omega)
    revert this
    cases is_ok (c k) <;> simp
  · intro h k hk
    have := h k (by omega)
    simp [this]

/-- C5: before the deadline the loop never gives up on a specific error
kind — it inspects an attempt only through `is_ok`, so replacing every
error (refused, reset, or any other transport error) by any other error
kind leaves the result unchanged; failure is decided only by the
deadline. -/
theorem wait_for_server_error_kind_irrelevant
    (c1 c2 : Nat → ConnectResult) (m : Nat)
    (h : ∀ k, is_ok (c1 k) = is_ok (c2 k)) :
    wait_for_server c1 m = wait_for_server c2 m := by
  unfold wait_for_server
  exact waitFrom_congr c1 c2 (1000 * m) h 0 0

/-- C5 witness: a run where every attempt is refused equals a run where
every attempt fails with some other transport error. -/
theorem wait_for_server_error_kind_irrelevant_witness :
    wait_for_server (fun _ => Except.error TransportError.refused) 1 =
      wait_for_server (fun _ => Except.error (TransportError.other 7)) 1 :=
  wait_for_server_error_kind_irrelevant _ _ 1 (fun _ => rfl)

/-- C6: if sidecar resolution fails (or the spawn itself fails), the setup
aborts with a diagnostic message before any handle is stored — starting
from the empty registry the slot is never written, so a subsequent `take`
returns empty; execution reaches the registry write only after a
successful spawn. -/
theorem setup_sidecar_abort (resolve : Except String Unit)
    (spawnChild : Except String CommandChild)
    (h : (∃ e, resolve = Except.error e) ∨
         (∃ e, spawnChild = Except.error e)) :
    (∃ msg, setup_sidecar resolve spawnChild none = Except.error msg) ∧
    (take none).1 = (none : Option CommandChild) ∧
    (take none).2 = (none : ServerSlot) := by
  refine ⟨?_, rfl, rfl⟩
  rcases h with ⟨e, he⟩ | ⟨e, he⟩
  · refine ⟨"node sidecar not configured — see desktop/README.md", ?_⟩
    rw [he]; rfl
  · cases resolve with
    | error e2 =>
      exact ⟨"node sidecar not configured — see desktop/README.md", rfl⟩
    | ok u =>
      refine ⟨"Failed to spawn Next.js server", ?_⟩
      rw [he]; rfl

/-- C6 witness: with an unresolvable sidecar the setup aborts and the
registry stays empty. -/
theorem setup_sidecar_abort_witness :
    (∃ msg, setup_sidecar (Except.error "not found")
        (Except.ok ⟨1⟩) none = Except.error msg) ∧
    (take none).1 = (none : Option CommandChild) ∧
    (take none).2 = (none : ServerSlot) :=
  setup_sidecar_abort (Except.error "not found") (Except.ok ⟨1⟩)
    (Or.inl ⟨"not found", rfl⟩)

/-- C10: after the close handler the slot is always empty, the handler's
result does not depend on the kill outcome (the result of `kill` is
discarded), and a second close event finds the empty slot and is a no-op
(zero kills, slot still empty). -/
theorem on_close_slot_empty (k k2 : CommandChild → Except String Unit)
    (s : ServerSlot) :
    (on_close k s).2 = none ∧
    on_close k s = on_close k2 s ∧
    on_close k2 (on_close k s).2 = (0, none) := by
  cases s <;> simp [on_close, take]

end Handai
